import Mathlib

/-!
Shallow embedding of `iroha/src/maintenance.rs`: the maintenance (metrics
scraping and health) subsystem of the iroha node.

Modelling conventions:
* Rust `Result<T, E>` becomes `Except E T`; the `?` operator becomes an
  explicit early return in the match.
* A method taking `&mut self` and returning `Result<()>` becomes a pure
  function `State → Env → Except Err Unit × State`, returning the state of
  `self` after the call on both the success and the error path (Rust leaves
  `self` as it was at the point of the early return).
* The outcomes of the OS and filesystem queries performed by the probes
  (`heim::cpu::*`, `heim::memory::*`, `tokio::fs::read_dir`, `DirEntry`,
  `Path::metadata`) are passed in as an explicit environment value, one
  field per query the code performs.
* `u64` is `Nat`; the accumulating addition `total_size += len` wraps at
  `2 ^ 64` (release-mode Rust semantics), written with an explicit `% 2 ^ 64`.
* Rust strings are `String`; `format!("{:?}", r)` applied to a whole
  `Result` value renders `Ok(.)` / `Err(.)` around the payload rendering,
  which the environment supplies as an opaque string.
-/

deriving instance DecidableEq for Except

namespace Iroha

/-- Byte-count arithmetic is `u64`: wraps at this modulus. -/
def U64MOD : Nat := 2 ^ 64

/-- Modelled from the spec: `crate::kura::config::KuraConfiguration` is not
under `src/`; the only field this module reads is the configured block-store
directory path (`kura_block_store_path`, a string). -/
structure KuraConfiguration where
  kura_block_store_path : String
  deriving DecidableEq, Repr

/-- Modelled from the spec: `crate::config::Configuration` is not under
`src/`; the only part this module reads is its `kura_configuration`
component. -/
structure Configuration where
  kura_configuration : KuraConfiguration
  deriving DecidableEq, Repr

/-- Outcome of one `heim` OS metric query as received by a probe: a Rust
`Result` whose success and error payloads are abstracted by their `Debug`
renderings. -/
abbrev OsQueryResult := Except String String

/-- Rust `format!("{:?}", r)` on a whole `Result` value: the derived `Debug`
for `Result` prints `Ok(payload)` or `Err(payload)`. -/
def fmtDebugResult (r : OsQueryResult) : String :=
  match r with
  | Except.ok s => "Ok(" ++ s ++ ")"
  | Except.error s => "Err(" ++ s ++ ")"

/-- The three error-wrapping sites of `Disk::calculate` (`wrap_err` with a
fixed context string around the underlying cause); the CPU and memory probes
have no error site of their own. -/
inductive MetricsError where
  /-- Wrap site "Failed to read block storage directoru" on `read_dir`. -/
  | dirUnreadable (cause : String)
  /-- Wrap site "Failed to retrieve entry path" on a directory entry. -/
  | entryUnreadable (cause : String)
  /-- Wrap site "Failed to get file metadata" on `path.metadata()`. -/
  | metadataUnreadable (cause : String)
  deriving DecidableEq, Repr

/-- View of one directory entry as the traversal in `Disk::calculate` uses
it: whether `entry.path().is_file()` holds, and the outcome of
`path.metadata()` (its `len()` when it succeeds). -/
structure EntryView where
  is_file : Bool
  metadata : Except String Nat
  deriving DecidableEq, Repr

/-- Outcome of `tokio::fs::read_dir(path)` followed by streaming the
entries: either the directory cannot be opened, or a finite list of entry
outcomes, each either an I/O error or an `EntryView`. -/
abbrev DiskEnv := Except String (List (Except String EntryView))

/-- The `Disk` metrics struct: `block_storage_size: u64`,
`block_storage_path: String`, in source order. -/
structure Disk where
  block_storage_size : Nat
  block_storage_path : String
  deriving DecidableEq, Repr

/-- Derived `Default` for `Disk`: zero size, empty path. -/
def Disk.default : Disk := { block_storage_size := 0, block_storage_path := "" }

/-- `Disk::new`: stores the configured path, everything else default. No
filesystem access: the function reads only the configuration. -/
def Disk.new (configuration : KuraConfiguration) : Disk :=
  { Disk.default with block_storage_path := configuration.kura_block_store_path }

/-- The `while let` loop of `Disk::calculate`: folds the entry outcomes into
the local `total_size` accumulator, returning early on the first entry or
metadata error; every regular file adds its byte length (u64 wrapping
addition). -/
def sumEntries : List (Except String EntryView) → Nat → Except MetricsError Nat
  | [], acc => Except.ok acc
  | e :: rest, acc =>
    match e with
    | Except.error c => Except.error (MetricsError.entryUnreadable c)
    | Except.ok p =>
      if p.is_file then
        match p.metadata with
        | Except.error c => Except.error (MetricsError.metadataUnreadable c)
        | Except.ok len => sumEntries rest ((acc + len) % U64MOD)
      else sumEntries rest acc

/-- `Disk::calculate`: opens the directory (failing with the
directory-unreadable wrap), folds the entries, and only after the whole
traversal succeeded assigns the accumulated total to `block_storage_size`;
on any error `self` is returned unchanged. -/
def Disk.calculate (d : Disk) (env : DiskEnv) : Except MetricsError Unit × Disk :=
  match env with
  | Except.error c => (Except.error (MetricsError.dirUnreadable c), d)
  | Except.ok entries =>
    match sumEntries entries 0 with
    | Except.error e => (Except.error e, d)
    | Except.ok total => (Except.ok (), { d with block_storage_size := total })

/-- Outcomes of the three `heim::cpu` queries `Load::calculate` performs. -/
structure CpuEnv where
  frequency : OsQueryResult
  stats : OsQueryResult
  time : OsQueryResult
  deriving DecidableEq, Repr

/-- The `Load` struct of the cpu module: three diagnostic strings. -/
structure Load where
  frequency : String
  stats : String
  time : String
  deriving DecidableEq, Repr

/-- Derived `Default` for `Load`: empty strings. -/
def Load.default : Load := { frequency := "", stats := "", time := "" }

/-- `Load::new` is `Load::default()`. -/
def Load.new : Load := Load.default

/-- `Load::calculate`: formats each whole query `Result` with `{:?}` into
the corresponding field and returns `Ok(())` unconditionally — a failed
query is rendered as an `Err(.)` string, not propagated. -/
def Load.calculate (_l : Load) (env : CpuEnv) : Except MetricsError Unit × Load :=
  (Except.ok (),
    { frequency := fmtDebugResult env.frequency
      stats := fmtDebugResult env.stats
      time := fmtDebugResult env.time })

/-- The `Cpu` struct: wraps a `Load`. -/
structure Cpu where
  load : Load
  deriving DecidableEq, Repr

/-- Derived `Default` for `Cpu`. -/
def Cpu.default : Cpu := { load := Load.default }

/-- `Cpu::new` is `Cpu::default()`. -/
def Cpu.new : Cpu := Cpu.default

/-- `Cpu::calculate` delegates to `Load::calculate`. -/
def Cpu.calculate (c : Cpu) (env : CpuEnv) : Except MetricsError Unit × Cpu :=
  let r := c.load.calculate env
  (r.1, { load := r.2 })

/-- Outcomes of the two `heim::memory` queries `Memory::calculate`
performs. -/
structure MemoryEnv where
  memory : OsQueryResult
  swap : OsQueryResult
  deriving DecidableEq, Repr

/-- The `Memory` struct: two diagnostic strings. -/
structure Memory where
  memory : String
  swap : String
  deriving DecidableEq, Repr

/-- Derived `Default` for `Memory`: empty strings. -/
def Memory.default : Memory := { memory := "", swap := "" }

/-- `Memory::new` is `Memory::default()`. -/
def Memory.new : Memory := Memory.default

/-- `Memory::calculate`: formats each whole query `Result` with `{:?}` into
the corresponding field and returns `Ok(())` unconditionally. -/
def Memory.calculate (_m : Memory) (env : MemoryEnv) : Except MetricsError Unit × Memory :=
  (Except.ok (),
    { memory := fmtDebugResult env.memory
      swap := fmtDebugResult env.swap })

/-- The `Metrics` aggregate: cpu, disk, memory, in source order. -/
structure Metrics where
  cpu : Cpu
  disk : Disk
  memory : Memory
  deriving DecidableEq, Repr

/-- Derived `Default` for `Metrics`. -/
def Metrics.default : Metrics :=
  { cpu := Cpu.default, disk := Disk.default, memory := Memory.default }

/-- `Metrics::new`: the disk component is seeded from the kura
configuration, everything else is `Metrics::default()`. -/
def Metrics.new (configuration : Configuration) : Metrics :=
  { Metrics.default with disk := Disk.new configuration.kura_configuration }

/-- Environment for one full `Metrics::calculate`: the outcomes of every OS
and filesystem query the three probes would perform. -/
structure MetricsEnv where
  disk : DiskEnv
  cpu : CpuEnv
  memory : MemoryEnv
  deriving DecidableEq, Repr

/-- `Metrics::calculate`: `self.disk.calculate().await?` then
`self.cpu.calculate().await?` then `self.memory.calculate().await?`; each
`?` returns the error immediately, leaving the not-yet-run probes' fields
as they were. -/
def Metrics.calculate (m : Metrics) (env : MetricsEnv) : Except MetricsError Unit × Metrics :=
  let rd := m.disk.calculate env.disk
  match rd.1 with
  | Except.error e => (Except.error e, { m with disk := rd.2 })
  | Except.ok _ =>
    let rc := m.cpu.calculate env.cpu
    match rc.1 with
    | Except.error e => (Except.error e, { m with disk := rd.2, cpu := rc.2 })
    | Except.ok _ =>
      let rm := m.memory.calculate env.memory
      match rm.1 with
      | Except.error e =>
        (Except.error e, { cpu := rc.2, disk := rd.2, memory := rm.2 })
      | Except.ok _ =>
        (Except.ok (), { cpu := rc.2, disk := rd.2, memory := rm.2 })

/-- The `System` entry point: holds an owned copy of the configuration. -/
structure System where
  configuration : Configuration
  deriving DecidableEq, Repr

/-- `System::new` clones the configuration. -/
def System.new (configuration : Configuration) : System :=
  { configuration := configuration }

/-- `System::scrape_metrics`: builds a fresh `Metrics::new(&config)`,
runs `calculate` on it, and returns the snapshot on success; on error the
local snapshot is dropped and only the error is returned. -/
def System.scrape_metrics (s : System) (env : MetricsEnv) : Except MetricsError Metrics :=
  let m := Metrics.new s.configuration
  let r := m.calculate env
  match r.1 with
  | Except.error e => Except.error e
  | Except.ok _ => Except.ok r.2

/-- The `Health` enum: two fieldless variants. -/
inductive Health where
  | Healthy
  | Ready
  deriving DecidableEq, Repr

/-- Derived SCALE `Encode` for a fieldless enum (parity-scale-codec): one
byte holding the variant index, in declaration order. -/
def Health.encode : Health → List Nat
  | Health.Healthy => [0]
  | Health.Ready => [1]

/-- Derived SCALE `Decode` for `Health`: read one byte, map index `0` and
`1` back to the variants, reject anything else; returns the remaining
input alongside the value. -/
def Health.decode : List Nat → Except String (Health × List Nat)
  | 0 :: rest => Except.ok (Health.Healthy, rest)
  | 1 :: rest => Except.ok (Health.Ready, rest)
  | _ => Except.error "unexpected variant byte"

/-- Derived serde `Serialize` for a fieldless enum variant in a
human-readable format: the variant name as a string. -/
def Health.serializeHuman : Health → String
  | Health.Healthy => "Healthy"
  | Health.Ready => "Ready"

/-- Derived serde `Deserialize` for `Health` from the human-readable
form: match the variant name, reject unknown names. -/
def Health.deserializeHuman (s : String) : Except String Health :=
  if s = "Healthy" then Except.ok Health.Healthy
  else if s = "Ready" then Except.ok Health.Ready
  else Except.error "unknown variant"

/-- The byte lengths of the top-level regular files of a directory
listing, stated in the spec's words: one length per entry that is a
regular file with readable metadata, no recursion into anything. Used to
compare `Disk.calculate` against the spec's "exact sum of those files'
byte lengths". -/
def regularFileSizes : List (Except String EntryView) → List Nat
  | [] => []
  | e :: rest =>
    match e with
    | Except.error _ => regularFileSizes rest
    | Except.ok p =>
      if p.is_file then
        match p.metadata with
        | Except.ok n => n :: regularFileSizes rest
        | Except.error _ => regularFileSizes rest
      else regularFileSizes rest

/-- A listing is fully readable when every entry outcome is `Ok` and every
regular file's metadata is `Ok`: the hypotheses under which the traversal
of `Disk::calculate` cannot fail. -/
def ReadableListing (entries : List (Except String EntryView)) : Prop :=
  ∀ e ∈ entries, ∃ p, e = Except.ok p ∧
    (p.is_file = true → ∃ n, p.metadata = Except.ok n)

/-- The rendering of a whole query `Result` is never the empty string: it
always carries the `Ok(` or `Err(` wrapper. -/
theorem fmtDebugResult_ne_empty (r : OsQueryResult) : fmtDebugResult r ≠ "" := by
  cases r with
  | ok s =>
    intro h
    have hl := congrArg String.length h
    simp [fmtDebugResult, String.length_append] at hl
    exact absurd hl.2 (by decide)
  | error s =>
    intro h
    have hl := congrArg String.length h
    simp [fmtDebugResult, String.length_append] at hl
    exact absurd hl.2 (by decide)

/-- On a fully readable listing whose file sizes fit in `u64` together with
the starting accumulator, the traversal of `Disk::calculate` succeeds and
returns the exact (non-wrapped) sum. -/
theorem sumEntries_readable (entries : List (Except String EntryView)) (acc : Nat)
    (hread : ReadableListing entries)
    (hb : acc + (regularFileSizes entries).sum < U64MOD) :
    sumEntries entries acc = Except.ok (acc + (regularFileSizes entries).sum) := by
  induction entries generalizing acc with
  | nil => simp [sumEntries, regularFileSizes]
  | cons e rest ih =>
    obtain ⟨p, rfl, hmeta⟩ := hread e (List.mem_cons_self e rest)
    have hrest : ReadableListing rest := fun x hx => hread x (List.mem_cons_of_mem _ hx)
    by_cases hf : p.is_file
    · obtain ⟨n, hn⟩ := hmeta hf
      simp only [regularFileSizes, hf, hn, if_true, List.sum_cons] at hb ⊢
      simp only [sumEntries, hf, hn, if_true]
      have hlt : acc + n < U64MOD := by omega
      rw [Nat.mod_eq_of_lt hlt]
      rw [ih (acc + n) hrest (by omega)]
      congr 1
      omega
    · simp only [regularFileSizes, hf, if_false] at hb ⊢
      simp only [sumEntries, hf, if_false]
      exact ih acc hrest hb

/-- `regularFileSizes` distributes over list append. -/
theorem regularFileSizes_append (xs ys : List (Except String EntryView)) :
    regularFileSizes (xs ++ ys) = regularFileSizes xs ++ regularFileSizes ys := by
  induction xs with
  | nil => rfl
  | cons e rest ih =>
    cases e with
    | error c => simpa [regularFileSizes] using ih
    | ok p =>
      by_cases hf : p.is_file
      · cases hm : p.metadata with
        | ok n => simp [regularFileSizes, hf, hm, ih]
        | error c => simp [regularFileSizes, hf, hm, ih]
      · simp [regularFileSizes, hf, ih]

/-- Readability is preserved by appending a readable regular file entry. -/
theorem readableListing_append_file (entries : List (Except String EntryView)) (n : Nat)
    (hread : ReadableListing entries) :
    ReadableListing (entries ++ [Except.ok { is_file := true, metadata := Except.ok n }]) := by
  intro e he
  rcases List.mem_append.mp he with hx | hx
  · exact hread e hx
  · rcases List.mem_singleton.mp hx with rfl
    exact ⟨_, rfl, fun _ => ⟨n, rfl⟩⟩

/-- Claim C7: each `Health` variant round-trips through the SCALE codec
(decoding the encoding yields the same variant with no input left over)
and through the human-readable serde encoding (deserializing the
serialization yields the same variant). -/
theorem health_roundtrip_both_encodings (h : Health) :
    Health.decode (Health.encode h) = Except.ok (h, []) ∧
    Health.deserializeHuman (Health.serializeHuman h) = Except.ok h := by
  cases h <;> exact ⟨rfl, by decide⟩

/-- Claim C8: for every configuration, `Metrics::new` yields a snapshot
whose CPU and memory diagnostic strings are all the default empty string,
and whose disk component carries the configured block-store path with a
zero size. -/
theorem metrics_new_default_fields (cfg : Configuration) :
    (Metrics.new cfg).cpu.load.frequency = "" ∧
    (Metrics.new cfg).cpu.load.stats = "" ∧
    (Metrics.new cfg).cpu.load.time = "" ∧
    (Metrics.new cfg).memory.memory = "" ∧
    (Metrics.new cfg).memory.swap = "" ∧
    (Metrics.new cfg).disk.block_storage_path
      = cfg.kura_configuration.kura_block_store_path ∧
    (Metrics.new cfg).disk.block_storage_size = 0 :=
  ⟨rfl, rfl, rfl, rfl, rfl, rfl, rfl⟩

/-- Claim C9: `block_storage_path` is set from the configuration by
`Disk::new` and no invocation of `Disk::calculate` — succeeding or
failing — changes it: the path after the call equals the path before. -/
theorem block_storage_path_construction_and_frame
    (c : KuraConfiguration) (d : Disk) (env : DiskEnv) :
    (Disk.new c).block_storage_path = c.kura_block_store_path ∧
    ((Disk.calculate d env).2).block_storage_path = d.block_storage_path := by
  refine ⟨rfl, ?_⟩
  cases env with
  | error c2 => rfl
  | ok entries =>
    simp only [Disk.calculate]
    cases sumEntries entries 0 <;> rfl

/-- Claim C10: `Disk::calculate` accumulates into a local and assigns the
field only after the whole traversal succeeded, so whenever it returns an
error the `Disk` state — in particular `block_storage_size` — is exactly
what it was before the call. -/
theorem disk_calculate_error_preserves_state
    (d : Disk) (env : DiskEnv) (e : MetricsError)
    (h : (Disk.calculate d env).1 = Except.error e) :
    (Disk.calculate d env).2 = d := by
  cases env with
  | error c => rfl
  | ok entries =>
    simp only [Disk.calculate] at h ⊢
    cases hs : sumEntries entries 0 with
    | error e2 => simp [hs]
    | ok total => simp [hs] at h

/-- Claim C10 witness: at a listing whose second entry has unreadable
metadata, `calculate` errors and the state, size included, is unchanged. -/
theorem disk_calculate_error_preserves_state_witness :
    ((Disk.calculate { block_storage_size := 7, block_storage_path := "blocks" }
        (Except.ok [Except.ok { is_file := true, metadata := Except.ok 3 },
          Except.ok { is_file := true, metadata := Except.error "io" }])).2)
      = { block_storage_size := 7, block_storage_path := "blocks" } :=
  disk_calculate_error_preserves_state
    { block_storage_size := 7, block_storage_path := "blocks" }
    (Except.ok [Except.ok { is_file := true, metadata := Except.ok 3 },
      Except.ok { is_file := true, metadata := Except.error "io" }])
    (MetricsError.metadataUnreadable "io") rfl

/-- Claim C1 evaluation: contrary to the claim (and to the code's own
error documentation), when every underlying OS query fails both
`Load::calculate` and `Memory::calculate` still return `Ok(())`; the
failure is only rendered as an `Err(.)` diagnostic string. -/
theorem load_and_memory_calculate_swallow_query_errors :
    (Load.calculate Load.default
        { frequency := Except.error "permission denied",
          stats := Except.error "unsupported platform",
          time := Except.error "unsupported platform" }).1 = Except.ok () ∧
    (Load.calculate Load.default
        { frequency := Except.error "permission denied",
          stats := Except.error "unsupported platform",
          time := Except.error "unsupported platform" }).2.frequency
      = "Err(permission denied)" ∧
    (Memory.calculate Memory.default
        { memory := Except.error "query failed",
          swap := Except.error "query failed" }).1 = Except.ok () ∧
    (Memory.calculate Memory.default
        { memory := Except.error "query failed",
          swap := Except.error "query failed" }).2.memory
      = "Err(query failed)" :=
  ⟨rfl, rfl, rfl, rfl⟩

/-- Claim C5: whenever the block-storage directory cannot be opened for
listing, `Disk::calculate` fails with the directory-unreadable error, the
scrape returns that error, and no snapshot is returned; the model is
deterministic in the filesystem outcome, so on a path whose listing always
fails (a non-existent path) this holds on every invocation. -/
theorem disk_unreadable_fails_scrape (s : System) (env : MetricsEnv) (c : String)
    (hdir : env.disk = Except.error c) :
    System.scrape_metrics s env = Except.error (MetricsError.dirUnreadable c) ∧
    ∀ m, System.scrape_metrics s env ≠ Except.ok m := by
  have h1 : System.scrape_metrics s env = Except.error (MetricsError.dirUnreadable c) := by
    simp [System.scrape_metrics, Metrics.calculate, Disk.calculate, hdir]
  exact ⟨h1, fun m hm => by rw [h1] at hm; exact Except.noConfusion hm⟩

/-- Claim C5 witness: a scrape over a missing block-storage directory
returns exactly the directory-unreadable error. -/
theorem disk_unreadable_fails_scrape_witness :
    System.scrape_metrics
        (System.new { kura_configuration := { kura_block_store_path := "/nonexistent" } })
        { disk := Except.error "No such file or directory",
          cpu := { frequency := Except.ok "f", stats := Except.ok "s", time := Except.ok "t" },
          memory := { memory := Except.ok "m", swap := Except.ok "w" } } =
      Except.error (MetricsError.dirUnreadable "No such file or directory") :=
  (disk_unreadable_fails_scrape
      (System.new { kura_configuration := { kura_block_store_path := "/nonexistent" } })
      { disk := Except.error "No such file or directory",
        cpu := { frequency := Except.ok "f", stats := Except.ok "s", time := Except.ok "t" },
        memory := { memory := Except.ok "m", swap := Except.ok "w" } }
      "No such file or directory" rfl).1

/-- Claim C6: every snapshot returned by a successful `scrape_metrics` has
non-empty CPU diagnostic strings (frequency, stats, time) and non-empty
memory diagnostic strings (memory, swap). -/
theorem scrape_ok_diagnostic_strings_nonempty (s : System) (env : MetricsEnv) (m : Metrics)
    (h : System.scrape_metrics s env = Except.ok m) :
    m.cpu.load.frequency ≠ "" ∧ m.cpu.load.stats ≠ "" ∧ m.cpu.load.time ≠ "" ∧
    m.memory.memory ≠ "" ∧ m.memory.swap ≠ "" := by
  cases hd : (Disk.calculate (Metrics.new s.configuration).disk env.disk).1 with
  | error e =>
    exfalso
    simp [System.scrape_metrics, Metrics.calculate, hd] at h
  | ok u =>
    cases u
    simp only [System.scrape_metrics, Metrics.calculate, hd,
      Cpu.calculate, Load.calculate, Memory.calculate, Except.ok.injEq] at h
    subst h
    exact ⟨fmtDebugResult_ne_empty _, fmtDebugResult_ne_empty _, fmtDebugResult_ne_empty _,
      fmtDebugResult_ne_empty _, fmtDebugResult_ne_empty _⟩

/-- Claim C6 witness: a concrete successful scrape, with all five
diagnostic strings non-empty on the returned snapshot. -/
theorem scrape_ok_diagnostic_strings_nonempty_witness :
    System.scrape_metrics
        (System.new { kura_configuration := { kura_block_store_path := "blocks" } })
        { disk := Except.ok [],
          cpu := { frequency := Except.ok "f", stats := Except.ok "s", time := Except.ok "t" },
          memory := { memory := Except.ok "m", swap := Except.ok "w" } } =
      Except.ok
        { cpu := { load := { frequency := "Ok(f)", stats := "Ok(s)", time := "Ok(t)" } },
          disk := { block_storage_size := 0, block_storage_path := "blocks" },
          memory := { memory := "Ok(m)", swap := "Ok(w)" } } ∧
    (({ cpu := { load := { frequency := "Ok(f)", stats := "Ok(s)", time := "Ok(t)" } },
        disk := { block_storage_size := 0, block_storage_path := "blocks" },
        memory := { memory := "Ok(m)", swap := "Ok(w)" } } : Metrics)).cpu.load.frequency ≠ "" ∧
    (({ cpu := { load := { frequency := "Ok(f)", stats := "Ok(s)", time := "Ok(t)" } },
        disk := { block_storage_size := 0, block_storage_path := "blocks" },
        memory := { memory := "Ok(m)", swap := "Ok(w)" } } : Metrics)).memory.swap ≠ "" := by
  have h := scrape_ok_diagnostic_strings_nonempty
      (System.new { kura_configuration := { kura_block_store_path := "blocks" } })
      { disk := Except.ok [],
        cpu := { frequency := Except.ok "f", stats := Except.ok "s", time := Except.ok "t" },
        memory := { memory := Except.ok "m", swap := Except.ok "w" } }
      { cpu := { load := { frequency := "Ok(f)", stats := "Ok(s)", time := "Ok(t)" } },
        disk := { block_storage_size := 0, block_storage_path := "blocks" },
        memory := { memory := "Ok(m)", swap := "Ok(w)" } }
      (by decide)
  exact ⟨by decide, h.1, h.2.2.2.2⟩

/-- Claim C3: `scrape_metrics` is all-or-nothing: either it returns `Ok`
with a snapshot on which all three probe calculations succeeded, or it
returns the first probe error (the disk probe's, the only fallible one)
and no snapshot at all. -/
theorem scrape_metrics_all_or_nothing (s : System) (env : MetricsEnv) :
    (∃ m, System.scrape_metrics s env = Except.ok m ∧
        (Disk.calculate (Metrics.new s.configuration).disk env.disk).1 = Except.ok () ∧
        (Cpu.calculate (Metrics.new s.configuration).cpu env.cpu).1 = Except.ok () ∧
        (Memory.calculate (Metrics.new s.configuration).memory env.memory).1 = Except.ok ()) ∨
    (∃ e, System.scrape_metrics s env = Except.error e ∧
        (Disk.calculate (Metrics.new s.configuration).disk env.disk).1 = Except.error e ∧
        ∀ m, System.scrape_metrics s env ≠ Except.ok m) := by
  cases hd : (Disk.calculate (Metrics.new s.configuration).disk env.disk).1 with
  | error e =>
    right
    have h1 : System.scrape_metrics s env = Except.error e := by
      simp [System.scrape_metrics, Metrics.calculate, hd]
    exact ⟨e, h1, rfl, fun m hm => by rw [h1] at hm; exact Except.noConfusion hm⟩
  | ok u =>
    cases u
    left
    have h1 : System.scrape_metrics s env =
        Except.ok
          { cpu := (Cpu.calculate (Metrics.new s.configuration).cpu env.cpu).2,
            disk := (Disk.calculate (Metrics.new s.configuration).disk env.disk).2,
            memory := (Memory.calculate (Metrics.new s.configuration).memory env.memory).2 } := by
      simp [System.scrape_metrics, Metrics.calculate, Cpu.calculate, Load.calculate,
        Memory.calculate, hd]
    exact ⟨_, h1, rfl, rfl, rfl⟩

/-- Claim C4: within one scrape the probes run in the fixed order disk,
then CPU, then memory; the first error (necessarily the disk probe's) is
returned at once, the remaining probes are not invoked — their fields are
unchanged and the outcome does not depend on their query environments —
and on disk success all three probes contribute their results. -/
theorem metrics_calculate_order_short_circuit (m : Metrics) (denv : DiskEnv)
    (cenv cenv2 : CpuEnv) (menv menv2 : MemoryEnv) :
    (∀ e, (Disk.calculate m.disk denv).1 = Except.error e →
      Metrics.calculate m { disk := denv, cpu := cenv, memory := menv } =
        (Except.error e, { m with disk := (Disk.calculate m.disk denv).2 }) ∧
      Metrics.calculate m { disk := denv, cpu := cenv, memory := menv } =
        Metrics.calculate m { disk := denv, cpu := cenv2, memory := menv2 }) ∧
    ((Disk.calculate m.disk denv).1 = Except.ok () →
      Metrics.calculate m { disk := denv, cpu := cenv, memory := menv } =
        (Except.ok (),
          { cpu := (Cpu.calculate m.cpu cenv).2,
            disk := (Disk.calculate m.disk denv).2,
            memory := (Memory.calculate m.memory menv).2 })) := by
  constructor
  · intro e he
    constructor
    · simp [Metrics.calculate, he]
    · simp [Metrics.calculate, he]
  · intro hok
    simp [Metrics.calculate, Cpu.calculate, Load.calculate, Memory.calculate, hok]

/-- Claim C4 witness: on a failing disk environment the first error comes
back with the CPU and memory fields untouched, identically for two
different CPU/memory environments; on a succeeding disk environment all
three probes contribute. -/
theorem metrics_calculate_order_short_circuit_witness :
    Metrics.calculate Metrics.default
        { disk := Except.error "boom",
          cpu := { frequency := Except.ok "f1", stats := Except.ok "s1", time := Except.ok "t1" },
          memory := { memory := Except.ok "m1", swap := Except.ok "w1" } } =
      (Except.error (MetricsError.dirUnreadable "boom"), Metrics.default) ∧
    Metrics.calculate Metrics.default
        { disk := Except.error "boom",
          cpu := { frequency := Except.ok "f1", stats := Except.ok "s1", time := Except.ok "t1" },
          memory := { memory := Except.ok "m1", swap := Except.ok "w1" } } =
      Metrics.calculate Metrics.default
        { disk := Except.error "boom",
          cpu := { frequency := Except.error "f2", stats := Except.error "s2", time := Except.error "t2" },
          memory := { memory := Except.error "m2", swap := Except.error "w2" } } ∧
    Metrics.calculate Metrics.default
        { disk := Except.ok [],
          cpu := { frequency := Except.ok "f1", stats := Except.ok "s1", time := Except.ok "t1" },
          memory := { memory := Except.ok "m1", swap := Except.ok "w1" } } =
      (Except.ok (),
        { cpu := { load := { frequency := "Ok(f1)", stats := "Ok(s1)", time := "Ok(t1)" } },
          disk := { block_storage_size := 0, block_storage_path := "" },
          memory := { memory := "Ok(m1)", swap := "Ok(w1)" } }) := by
  have h := metrics_calculate_order_short_circuit Metrics.default (Except.error "boom")
      { frequency := Except.ok "f1", stats := Except.ok "s1", time := Except.ok "t1" }
      { frequency := Except.error "f2", stats := Except.error "s2", time := Except.error "t2" }
      { memory := Except.ok "m1", swap := Except.ok "w1" }
      { memory := Except.error "m2", swap := Except.error "w2" }
  have h2 := metrics_calculate_order_short_circuit Metrics.default (Except.ok [])
      { frequency := Except.ok "f1", stats := Except.ok "s1", time := Except.ok "t1" }
      { frequency := Except.error "f2", stats := Except.error "s2", time := Except.error "t2" }
      { memory := Except.ok "m1", swap := Except.ok "w1" }
      { memory := Except.error "m2", swap := Except.error "w2" }
  exact ⟨(h.1 (MetricsError.dirUnreadable "boom") rfl).1,
    (h.1 (MetricsError.dirUnreadable "boom") rfl).2, h2.2 rfl⟩

/-- Claim C2: on a directory whose top-level listing is fully readable
(and whose file sizes fit in `u64`), `Disk::calculate` succeeds and stores
exactly the sum of the byte lengths of the top-level regular files —
non-file entries such as subdirectories are ignored and nothing is
recursed into — and appending one more regular file of size `n` to the
listing increases the computed size by exactly `n`. -/
theorem disk_calculate_exact_sum_of_top_level_files
    (d : Disk) (entries : List (Except String EntryView))
    (hread : ReadableListing entries)
    (hb : (regularFileSizes entries).sum < U64MOD) :
    Disk.calculate d (Except.ok entries) =
      (Except.ok (), { d with block_storage_size := (regularFileSizes entries).sum }) ∧
    ∀ n, (regularFileSizes entries).sum + n < U64MOD →
      Disk.calculate d
          (Except.ok (entries ++ [Except.ok { is_file := true, metadata := Except.ok n }])) =
        (Except.ok (),
          { d with block_storage_size := (regularFileSizes entries).sum + n }) := by
  constructor
  · simp only [Disk.calculate]
    rw [sumEntries_readable entries 0 hread (by omega)]
    simp
  · intro n hn
    have hr2 := readableListing_append_file entries n hread
    have hs2 : regularFileSizes
          (entries ++ [Except.ok { is_file := true, metadata := Except.ok n }])
        = regularFileSizes entries ++ [n] := by
      rw [regularFileSizes_append]
      rfl
    simp only [Disk.calculate]
    rw [sumEntries_readable _ 0 hr2 (by rw [hs2]; simp; omega)]
    rw [hs2]
    simp

/-- Claim C2 witness: two regular files of 10 and 20 bytes plus one
non-file entry give size 30; appending a regular file of 5 bytes gives
35. -/
theorem disk_calculate_exact_sum_witness :
    Disk.calculate { block_storage_size := 0, block_storage_path := "blocks" }
        (Except.ok [Except.ok { is_file := true, metadata := Except.ok 10 },
          Except.ok { is_file := true, metadata := Except.ok 20 },
          Except.ok { is_file := false, metadata := Except.ok 999 }]) =
      (Except.ok (), { block_storage_size := 30, block_storage_path := "blocks" }) ∧
    Disk.calculate { block_storage_size := 0, block_storage_path := "blocks" }
        (Except.ok ([Except.ok { is_file := true, metadata := Except.ok 10 },
          Except.ok { is_file := true, metadata := Except.ok 20 },
          Except.ok { is_file := false, metadata := Except.ok 999 }] ++
            [Except.ok { is_file := true, metadata := Except.ok 5 }])) =
      (Except.ok (), { block_storage_size := 35, block_storage_path := "blocks" }) := by
  have h := disk_calculate_exact_sum_of_top_level_files
      { block_storage_size := 0, block_storage_path := "blocks" }
      [Except.ok { is_file := true, metadata := Except.ok 10 },
        Except.ok { is_file := true, metadata := Except.ok 20 },
        Except.ok { is_file := false, metadata := Except.ok 999 }]
      (by
        intro e he
        simp only [List.mem_cons, List.not_mem_nil, or_false] at he
        rcases he with rfl | rfl | rfl
        · exact ⟨_, rfl, fun _ => ⟨10, rfl⟩⟩
        · exact ⟨_, rfl, fun _ => ⟨20, rfl⟩⟩
        · exact ⟨_, rfl, fun hc => nomatch hc⟩)
      (by decide)
  exact ⟨h.1, h.2 5 (by decide)⟩

end Iroha
